import Mathlib

/-
  Verification development for the rpi-fs-shrink repartitioning tool
  (src/src/main.rs). The pure computations of the program (size parsing,
  root-size validation, sector alignment, the partition layout planner,
  device-name construction, mount-table inspection) are embedded as
  executable Lean definitions. External effects (subprocess exit codes,
  file existence, tool output) are passed in as explicit oracle values,
  so each function is a pure function of its inputs plus those oracles.
  Machine integers are modelled as Nat with explicit wrap-around modulo
  2 ^ 64 at every u64 addition, subtraction and multiplication, matching
  the release-profile semantics of the source language.
-/

namespace Crpart

/-- Fixed sector size in bytes, from the SECTOR_SIZE constant. -/
def SECTOR_SIZE : Nat := 512

/-- Sector alignment boundary, from the ALIGNMENT constant. -/
def ALIGNMENT : Nat := 2048

/-- Minimum root size in GiB, from MIN_ROOT_SIZE_GB. -/
def MIN_ROOT_SIZE_GB : Nat := 8

/-- Maximum root size in GiB, from MAX_ROOT_SIZE_GB. -/
def MAX_ROOT_SIZE_GB : Nat := 64

/-- Modulus for 64-bit unsigned wrap-around arithmetic. -/
def U64MOD : Nat := 18446744073709551616

/-- Wrapping 64-bit addition. -/
def add64 (a b : Nat) : Nat := (a + b) % U64MOD

/-- Wrapping 64-bit subtraction, for operands below the modulus. -/
def sub64 (a b : Nat) : Nat := (a + U64MOD - b) % U64MOD

/-- Wrapping 64-bit multiplication. -/
def mul64 (a b : Nat) : Nat := (a * b) % U64MOD

/-- Ceiling division on Nat, the semantics of u64 div_ceil. -/
def divCeil (a b : Nat) : Nat := (a + b - 1) / b

/-- Sector alignment from the source: sector.div_ceil(ALIGNMENT) * ALIGNMENT,
with the multiplication wrapping as a u64 multiplication does. -/
def align_sector (sector : Nat) : Nat := mul64 (divCeil sector ALIGNMENT) ALIGNMENT

/-- Pure (non-wrapping) alignment value; agrees with align_sector whenever
the result stays below the 64-bit modulus. -/
def alignN (sector : Nat) : Nat := divCeil sector ALIGNMENT * ALIGNMENT

theorem alignN_le (x : Nat) : alignN x ≤ x + 2047 := by
  unfold alignN divCeil ALIGNMENT
  omega

theorem alignN_ge (x : Nat) : x ≤ alignN x := by
  unfold alignN divCeil ALIGNMENT
  omega

theorem alignN_mod (x : Nat) : alignN x % 2048 = 0 := by
  unfold alignN divCeil ALIGNMENT
  omega

theorem alignN_of_aligned (x : Nat) (h : x % 2048 = 0) : alignN x = x := by
  unfold alignN divCeil ALIGNMENT
  omega

theorem alignN_pos (x : Nat) (h : 1 ≤ x) : 2048 ≤ alignN x := by
  unfold alignN divCeil ALIGNMENT
  omega

theorem add64_eq_of_lt (a b : Nat) (h : a + b < U64MOD) : add64 a b = a + b := by
  unfold add64
  exact Nat.mod_eq_of_lt h

theorem sub64_one_eq (a : Nat) (h0 : 1 ≤ a) (h1 : a ≤ U64MOD) : sub64 a 1 = a - 1 := by
  unfold sub64 U64MOD at *
  omega

theorem align_sector_eq_alignN (x : Nat) (h : x + 2047 < U64MOD) :
    align_sector x = alignN x := by
  unfold align_sector alignN mul64
  exact Nat.mod_eq_of_lt (lt_of_le_of_lt (alignN_le x) h)

theorem align_sector_mod2048 (x : Nat) : align_sector x % 2048 = 0 := by
  unfold align_sector mul64 divCeil ALIGNMENT U64MOD
  omega

/-- Decimal digit test for the size-string grammar. -/
def isDigitC (c : Char) : Bool := 48 ≤ c.toNat && c.toNat ≤ 57

/-- Whitespace test used by trimming and the \s* part of the size regex. -/
def isWsChar (c : Char) : Bool := c = ' ' || c = '\t' || c = '\n' || c = '\r'

/-- Trim leading and trailing whitespace from a character list. -/
def trimChars (cs : List Char) : List Char :=
  ((cs.dropWhile isWsChar).reverse.dropWhile isWsChar).reverse

/-- Value of a list of decimal digit characters. -/
def digitsToNat (ds : List Char) : Nat :=
  ds.foldl (fun a c => a * 10 + (c.toNat - 48)) 0

/-- Core of parse_size, implementing the anchored pattern
digits [ dot digits ] ws* [KMGT] [B] end on an uppercased, trimmed input.
The numeric value number * multiplier is computed exactly and truncated to
an integer byte count; this agrees with the source f64 computation on every
input whose number and product are exactly representable in an f64, which
covers all binary-multiple size strings considered in the claims. -/
def parse_size_core (cs : List Char) : Option Nat :=
  let intPart := cs.takeWhile isDigitC
  let rest1 := cs.dropWhile isDigitC
  if intPart.isEmpty then none
  else
    let fracResult : Option (List Char × List Char) :=
      match rest1 with
      | '.' :: tl =>
        let fd := tl.takeWhile isDigitC
        if fd.isEmpty then none else some (fd, tl.dropWhile isDigitC)
      | _ => some ([], rest1)
    match fracResult with
    | none => none
    | some (fracPart, rest2) =>
      let rest3 := rest2.dropWhile isWsChar
      let unitResult : Nat × List Char :=
        match rest3 with
        | 'K' :: tl => (1024, tl)
        | 'M' :: tl => (1024 * 1024, tl)
        | 'G' :: tl => (1024 * 1024 * 1024, tl)
        | 'T' :: tl => (1024 * 1024 * 1024 * 1024, tl)
        | _ => (1, rest3)
      let mult := unitResult.1
      let rest4 := unitResult.2
      let rest5 := match rest4 with
        | 'B' :: tl => tl
        | _ => rest4
      if rest5.isEmpty then
        let k := fracPart.length
        some ((digitsToNat intPart * 10 ^ k + digitsToNat fracPart) * mult / 10 ^ k)
      else none

/-- parse_size from the source: trim the string, uppercase it (the source
uppercases ASCII letters; all grammar-relevant characters are ASCII), and
run the anchored size pattern. none models the ParseError bail. -/
def parse_size (s : String) : Option Nat :=
  parse_size_core ((trimChars s.toList).map Char.toUpper)

/-- validate_root_size from the source: false models the PolicyError bail
for a root size below 8 GiB or above 64 GiB. -/
def validate_root_size (size : Nat) : Bool :=
  if size < MIN_ROOT_SIZE_GB * 1024 * 1024 * 1024 then false
  else if MAX_ROOT_SIZE_GB * 1024 * 1024 * 1024 < size then false
  else true

/-- C8: root-size validation succeeds exactly when the parsed byte count lies
in the inclusive range 8 GiB to 64 GiB; it fails (PolicyError) strictly below
8 * 1024 ^ 3 or strictly above 64 * 1024 ^ 3, and succeeds at both boundary
values. -/
theorem c8_root_size_policy :
    (∀ s : Nat, validate_root_size s = true ↔ (8589934592 ≤ s ∧ s ≤ 68719476736))
    ∧ validate_root_size 8589934592 = true
    ∧ validate_root_size 68719476736 = true
    ∧ validate_root_size 8589934591 = false
    ∧ validate_root_size 68719476737 = false := by
  refine ⟨?_, by decide, by decide, by decide, by decide⟩
  intro s
  unfold validate_root_size MIN_ROOT_SIZE_GB MAX_ROOT_SIZE_GB
  constructor
  · intro h
    by_cases h1 : s < 8 * 1024 * 1024 * 1024
    · simp [h1] at h
    · by_cases h2 : 64 * 1024 * 1024 * 1024 < s
      · simp [h1, h2] at h
      · omega
  · intro h
    have h1 : ¬ s < 8 * 1024 * 1024 * 1024 := by omega
    have h2 : ¬ 64 * 1024 * 1024 * 1024 < s := by omega
    simp [h1, h2]

/-- C8 witness: the lower boundary value 8 GiB validates successfully,
obtained from the characterization theorem. -/
theorem c8_root_size_policy_witness : validate_root_size 8589934592 = true :=
  (c8_root_size_policy.1 8589934592).mpr (by decide)

/-- C9: parse_size maps the representable binary-multiple strings of the claim
to their exact byte counts, accepts the grammar number [fraction] unit with
optional whitespace, case-insensitivity and optional trailing B, and rejects
malformed inputs with a ParseError (modelled as none). -/
theorem c9_parse_size :
    parse_size "8G" = some 8589934592
    ∧ parse_size "512M" = some 536870912
    ∧ parse_size "1.5G" = some 1610612736
    ∧ parse_size "8g" = some 8589934592
    ∧ parse_size "8GB" = some 8589934592
    ∧ parse_size "8 G" = some 8589934592
    ∧ parse_size " 8G " = some 8589934592
    ∧ parse_size "1.5gb" = some 1610612736
    ∧ parse_size "8B" = some 8
    ∧ parse_size "4K" = some 4096
    ∧ parse_size "2T" = some 2199023255552
    ∧ parse_size "" = none
    ∧ parse_size "abc" = none
    ∧ parse_size "8X" = none
    ∧ parse_size "G8" = none
    ∧ parse_size "8." = none
    ∧ parse_size ".5G" = none
    ∧ parse_size "8.5.3G" = none
    ∧ parse_size "-8G" = none
    ∧ parse_size "8BB" = none
    ∧ parse_size "8K B" = none := by
  decide

/-- Boolean test that the first list starts with the second, modelling
str::starts_with. -/
def startsWithL : List Char → List Char → Bool
  | _, [] => true
  | [], _ :: _ => false
  | c :: cs, p :: ps => c == p && startsWithL cs ps

/-- Boolean substring test, modelling str::contains for a literal pattern. -/
def containsL : List Char → List Char → Bool
  | [], pat => pat.isEmpty
  | c :: cs, pat => startsWithL (c :: cs) pat || containsL cs pat

/-- String wrapper for the substring test. -/
def containsStr (s pat : String) : Bool := containsL s.toList pat.toList

/-- String wrapper for the starts-with test. -/
def startsWithStr (s pat : String) : Bool := startsWithL s.toList pat.toList

theorem containsL_append (pre s pat : List Char) (h : containsL s pat = true) :
    containsL (pre ++ s) pat = true := by
  induction pre with
  | nil => simpa using h
  | cons c cs ih => simp [containsL, ih]

/-- Split a character list on whitespace runs, modelling split_whitespace. -/
def splitWsAux : List Char → List Char → List (List Char)
  | [], acc => if acc.isEmpty then [] else [acc.reverse]
  | c :: cs, acc =>
    if isWsChar c then
      if acc.isEmpty then splitWsAux cs [] else acc.reverse :: splitWsAux cs []
    else splitWsAux cs (c :: acc)

/-- Whitespace-separated fields of a line. -/
def splitWs (cs : List Char) : List (List Char) := splitWsAux cs []

/-- Split on newline characters, keeping every (possibly empty) segment. -/
def splitLinesAux : List Char → List Char → List (List Char)
  | [], acc => [acc.reverse]
  | c :: cs, acc =>
    if c = '\n' then acc.reverse :: splitLinesAux cs [] else splitLinesAux cs (c :: acc)

/-- Remove one trailing carriage return, as str::lines does per line. -/
def stripCR (l : List Char) : List Char :=
  match l.reverse with
  | '\r' :: t => t.reverse
  | _ => l

/-- Lines of a string in the sense of str::lines: split on newline, drop the
final empty segment produced by a trailing newline, strip trailing \r. -/
def linesOf (cs : List Char) : List (List Char) :=
  let parts := splitLinesAux cs []
  let parts2 := match parts.reverse with
    | [] => []
    | lastP :: restRev => if lastP.isEmpty then restRev.reverse else parts
  parts2.map stripCR

/-- is_active_root_disk from the source, as a pure function of the contents
of /proc/mounts (read by the program) and the device path: scan each line,
and report true when a line mounts some device at the root mount point and
that device path and the target device path are related by a prefix in either
direction. -/
def is_active_root_disk (mounts device : String) : Bool :=
  (linesOf mounts.toList).any fun line =>
    match splitWs line with
    | p0 :: p1 :: _ =>
      (p1 == ['/']) && (startsWithL p0 device.toList || startsWithL device.toList p0)
    | _ => false

/-- DiskInfo from the source: immutable snapshot of the device geometry. -/
structure DiskInfo where
  device : String
  size_bytes : Nat
  size_sectors : Nat
  is_sd_card : Bool
  root_partition : String
deriving DecidableEq, Repr

/-- get_disk_info from the source, as a pure function of the raw device
argument plus oracles for the effectful queries: whether the device path
exists, the byte size parsed from the parted report (none models both a
failed parted run and an absent size pattern), and whether the computed root
partition path exists. Normalizes the device path, classifies SD cards by
the mmcblk substring, and derives the root partition name with the suffix 2
on SD devices and p2 otherwise. -/
def get_disk_info (deviceArg : String) (deviceExists : Bool)
    (partedSize : Option Nat) (rootPartExists : Bool) : Option DiskInfo :=
  let device := if startsWithStr deviceArg "/dev/" then deviceArg else "/dev/" ++ deviceArg
  if deviceExists = false then none
  else
    let is_sd := containsStr device "mmcblk"
    match partedSize with
    | none => none
    | some sizeBytes =>
      let sizeSectors := sizeBytes / SECTOR_SIZE
      let rootPartition := if is_sd then device ++ "2" else device ++ "p2"
      if rootPartExists = false then none
      else some { device := device, size_bytes := sizeBytes, size_sectors := sizeSectors,
                  is_sd_card := is_sd, root_partition := rootPartition }

/-- get_partition_device from the source, naming part only (the bounded wait
for the node and the existence check are effectful): mmcblk and nvme devices
get a p separator before the partition number, all others get the bare
number. -/
def get_partition_device (device : String) (partitionNum : Nat) : String :=
  if containsStr device "mmcblk" || containsStr device "nvme" then
    device ++ "p" ++ toString partitionNum
  else
    device ++ toString partitionNum

theorem toList_append (s t : String) : (s ++ t).toList = s.toList ++ t.toList := rfl

/-- C10: on every device path containing mmcblk, the root-partition path
computed by get_disk_info is the normalized device path with 2 appended and
no p separator, while get_partition_device on the same device and partition
number 2 appends p2 — so the two naming computations disagree on every
mmcblk device. -/
theorem c10_partition_naming_mismatch
    (arg : String) (psize : Nat) (d : DiskInfo)
    (h1 : containsStr arg "mmcblk" = true)
    (h2 : get_disk_info arg true (some psize) true = some d) :
    d.root_partition = d.device ++ "2"
    ∧ get_partition_device d.device 2 = d.device ++ "p2"
    ∧ d.root_partition ≠ get_partition_device d.device 2 := by
  have hsd : containsStr (if startsWithStr arg "/dev/" = true then arg
      else "/dev/" ++ arg) "mmcblk" = true := by
    by_cases hp : startsWithStr arg "/dev/" = true
    · simpa [hp] using h1
    · simp only [hp, if_neg, Bool.false_eq_true, not_false_eq_true]
      unfold containsStr at h1 ⊢
      rw [toList_append]
      exact containsL_append _ _ _ h1
  simp only [get_disk_info] at h2
  rw [if_neg (by simp)] at h2
  rw [if_neg (by simp)] at h2
  simp only [hsd, if_pos, Option.some.injEq] at h2
  subst h2
  have hps : "p" ++ toString 2 = "p2" := by decide
  refine ⟨rfl, ?_, ?_⟩
  · simp only [get_partition_device, hsd, Bool.true_or, if_pos]
    rw [String.append_assoc, hps]
  · simp only [get_partition_device, hsd, Bool.true_or, if_pos]
    rw [String.append_assoc, hps]
    intro heq
    have h3 := congrArg String.toList heq
    rw [toList_append, toList_append] at h3
    have h4 := List.append_cancel_left h3
    simp at h4

/-- C10 witness: concrete evaluation on /dev/mmcblk0, where get_disk_info
yields root partition /dev/mmcblk02 while get_partition_device yields
/dev/mmcblk0p2. -/
theorem c10_partition_naming_mismatch_witness :
    (⟨"/dev/mmcblk0", 68719476736, 134217728, true, "/dev/mmcblk02"⟩ : DiskInfo).root_partition
        = "/dev/mmcblk0" ++ "2"
    ∧ get_partition_device "/dev/mmcblk0" 2 = "/dev/mmcblk0" ++ "p2"
    ∧ (⟨"/dev/mmcblk0", 68719476736, 134217728, true, "/dev/mmcblk02"⟩ : DiskInfo).root_partition
        ≠ get_partition_device "/dev/mmcblk0" 2 :=
  c10_partition_naming_mismatch "/dev/mmcblk0" 68719476736
    ⟨"/dev/mmcblk0", 68719476736, 134217728, true, "/dev/mmcblk02"⟩
    (by decide) (by decide)

/-- PartitionLayout from the source: the planner output, sizes in bytes and
inclusive sector ranges for root, swap, var and home. -/
structure PartitionLayout where
  root_size_bytes : Nat
  swap_size_bytes : Nat
  var_size_bytes : Nat
  home_size_bytes : Nat
  root_start : Nat
  root_end : Nat
  swap_start : Nat
  swap_end : Nat
  var_start : Nat
  var_end : Nat
  home_start : Nat
  home_end : Nat
deriving DecidableEq, Repr

/-- Result of the layout planner: a layout, or the InsufficientSpaceError
bail when the residual home partition is below half the disk. -/
inductive CalcResult where
  | ok (layout : PartitionLayout)
  | insufficientSpace
deriving DecidableEq, Repr

/-- Computation of root_end in calculate_partition_layout:
align_sector(root_start + root_size_sectors) - 1 in wrapping u64 arithmetic. -/
def rootEndCalc (rootStart rootSize : Nat) : Nat :=
  sub64 (align_sector (add64 rootStart (rootSize / SECTOR_SIZE))) 1

/-- Computation of swap_start: align_sector(root_end + 1) when swap is
requested, 0 otherwise. -/
def swapStartCalc (swapSz rootEnd : Nat) : Nat :=
  if 0 < swapSz then align_sector (add64 rootEnd 1) else 0

/-- Computation of swap_end: align_sector(swap_start + swap_size_sectors) - 1
when swap is requested, 0 otherwise. -/
def swapEndCalc (swapSz swapStart : Nat) : Nat :=
  if 0 < swapSz then sub64 (align_sector (add64 swapStart (swapSz / SECTOR_SIZE))) 1 else 0

/-- Computation of var_start: the aligned sector after swap_end when swap is
present, else after root_end; 0 when var is absent. -/
def varStartCalc (varSz swapSz rootEnd swapEnd : Nat) : Nat :=
  if 0 < varSz then
    (if 0 < swapSz then align_sector (add64 swapEnd 1) else align_sector (add64 rootEnd 1))
  else 0

/-- Computation of var_end: align_sector(var_start + var_size_sectors) - 1
when var is requested, 0 otherwise. -/
def varEndCalc (varSz varStart : Nat) : Nat :=
  if 0 < varSz then sub64 (align_sector (add64 varStart (varSz / SECTOR_SIZE))) 1 else 0

/-- Computation of home_start: the aligned sector after the last preceding
partition end (var, else swap, else root). -/
def homeStartCalc (varSz swapSz rootEnd swapEnd varEnd : Nat) : Nat :=
  if 0 < varSz then align_sector (add64 varEnd 1)
  else if 0 < swapSz then align_sector (add64 swapEnd 1)
  else align_sector (add64 rootEnd 1)

/-- Field computations of calculate_partition_layout from the source. The
root partition start sector is read from the partition table by
get_partition_start inside the source function; it is passed here as the
rootStart argument. All u64 arithmetic wraps modulo 2 ^ 64, and absent swap
and var sizes are unwrapped to 0 exactly as swap_size.unwrap_or(0) does. -/
def plan_layout (d : DiskInfo) (rootSize : Nat)
    (swapSize varSize : Option Nat) (rootStart : Nat) : PartitionLayout :=
  let swapSz := swapSize.getD 0
  let varSz := varSize.getD 0
  let rootEnd := rootEndCalc rootStart rootSize
  let swapStart := swapStartCalc swapSz rootEnd
  let swapEnd := swapEndCalc swapSz swapStart
  let varStart := varStartCalc varSz swapSz rootEnd swapEnd
  let varEnd := varEndCalc varSz varStart
  let homeStart := homeStartCalc varSz swapSz rootEnd swapEnd varEnd
  let homeEnd := sub64 d.size_sectors 1
  let homeSize := mul64 (add64 (sub64 homeEnd homeStart) 1) SECTOR_SIZE
  { root_size_bytes := rootSize, swap_size_bytes := swapSz, var_size_bytes := varSz,
    home_size_bytes := homeSize, root_start := rootStart, root_end := rootEnd,
    swap_start := swapStart, swap_end := swapEnd, var_start := varStart,
    var_end := varEnd, home_start := homeStart, home_end := homeEnd }

/-- calculate_partition_layout from the source: compute the layout fields,
then bail with InsufficientSpaceError when the computed home size in bytes
is below half the total disk size in bytes. -/
def calculate_partition_layout (d : DiskInfo) (rootSize : Nat)
    (swapSize varSize : Option Nat) (rootStart : Nat) : CalcResult :=
  let l := plan_layout d rootSize swapSize varSize rootStart
  if l.home_size_bytes < d.size_bytes / 2 then CalcResult.insufficientSpace
  else CalcResult.ok l

/-- Every successful layout satisfies the field equations of the planner and
the home-size floor; shared destructuring helper for the layout claims. -/
theorem calc_ok_fields (d : DiskInfo) (rootSize : Nat)
    (swapSize varSize : Option Nat) (rootStart : Nat) (l : PartitionLayout)
    (h : calculate_partition_layout d rootSize swapSize varSize rootStart = CalcResult.ok l) :
    l.root_start = rootStart
    ∧ l.root_end = rootEndCalc rootStart rootSize
    ∧ l.swap_start = swapStartCalc (swapSize.getD 0) l.root_end
    ∧ l.swap_end = swapEndCalc (swapSize.getD 0) l.swap_start
    ∧ l.var_start = varStartCalc (varSize.getD 0) (swapSize.getD 0) l.root_end l.swap_end
    ∧ l.var_end = varEndCalc (varSize.getD 0) l.var_start
    ∧ l.home_start = homeStartCalc (varSize.getD 0) (swapSize.getD 0) l.root_end
        l.swap_end l.var_end
    ∧ l.home_end = sub64 d.size_sectors 1
    ∧ l.home_size_bytes = mul64 (add64 (sub64 l.home_end l.home_start) 1) SECTOR_SIZE
    ∧ l.swap_size_bytes = swapSize.getD 0
    ∧ l.var_size_bytes = varSize.getD 0
    ∧ l.root_size_bytes = rootSize
    ∧ d.size_bytes / 2 ≤ l.home_size_bytes := by
  simp only [calculate_partition_layout, plan_layout] at h
  split at h
  · exact CalcResult.noConfusion h
  · rename_i hguard
    injection h with h2
    subst h2
    exact ⟨rfl, rfl, rfl, rfl, rfl, rfl, rfl, rfl, rfl, rfl, rfl, rfl,
      Nat.le_of_not_lt hguard⟩

/-- C3: for every input, the planner either succeeds with a layout whose
computed home size in bytes is at least half the total disk size in bytes,
or fails with InsufficientSpaceError; it never returns a layout whose
computed home size is below that floor. -/
theorem c3_home_floor (d : DiskInfo) (rootSize : Nat)
    (swapSize varSize : Option Nat) (rootStart : Nat) :
    (∀ l, calculate_partition_layout d rootSize swapSize varSize rootStart = CalcResult.ok l →
      d.size_bytes / 2 ≤ l.home_size_bytes)
    ∧ ((∃ l, calculate_partition_layout d rootSize swapSize varSize rootStart = CalcResult.ok l)
        ∨ calculate_partition_layout d rootSize swapSize varSize rootStart
            = CalcResult.insufficientSpace) := by
  constructor
  · intro l h
    exact (calc_ok_fields d rootSize swapSize varSize rootStart l h).2.2.2.2.2.2.2.2.2.2.2.2
  · cases hE : calculate_partition_layout d rootSize swapSize varSize rootStart with
    | ok l => exact Or.inl ⟨l, rfl⟩
    | insufficientSpace => exact Or.inr rfl

/-- Membership of a sector in an inclusive sector range. -/
def sectorInRange (lo hi s : Nat) : Prop := lo ≤ s ∧ s ≤ hi

/-- Two inclusive sector ranges share no sector. -/
def rangesDisjoint (a b c d : Nat) : Prop :=
  ∀ s, sectorInRange a b s → ¬ sectorInRange c d s

theorem rangesDisjoint_of_lt (a b c d : Nat) (h : b < c) : rangesDisjoint a b c d := by
  intro s h1 h2
  unfold sectorInRange at h1 h2
  omega

theorem wrapped_end_eq (start n : Nat) (hpos : 1 ≤ start + n)
    (hb : start + n ≤ 9223372036854775808) :
    sub64 (align_sector (add64 start n)) 1 = alignN (start + n) - 1 := by
  have h3 := alignN_ge (start + n)
  have h4 := alignN_le (start + n)
  have e1 : add64 start n = start + n := add64_eq_of_lt _ _ (by unfold U64MOD; omega)
  have e2 : align_sector (start + n) = alignN (start + n) :=
    align_sector_eq_alignN _ (by unfold U64MOD; omega)
  rw [e1, e2]
  exact sub64_one_eq _ (by omega) (by unfold U64MOD; omega)

theorem align_next_of_aligned (e : Nat) (he : e % 2048 = 0) (h1 : 1 ≤ e)
    (hb : e ≤ 9223372036854775808) :
    align_sector (add64 (e - 1) 1) = e := by
  have h2 : add64 (e - 1) 1 = e := by unfold add64 U64MOD; omega
  rw [h2, align_sector_eq_alignN _ (by unfold U64MOD; omega), alignN_of_aligned _ he]

/-- C1 (amended): whenever the planner succeeds, each requested size is at
least one sector (512 bytes), and the start sector and sizes are small
enough that no 64-bit wrap-around occurs (all at most 2 ^ 60), then the
start sectors of the present partitions are strictly increasing in the
order root, swap (if requested), var (if requested), home; the inclusive
sector ranges of the present partitions are pairwise disjoint; and each
later partition starts at the aligned sector following the previous
partition range's end. The original claim fails without the one-sector
lower bound on each requested size: a requested size below one sector
yields an empty range whose successor partition starts at the same sector. -/
theorem c1_layout_order_amended (d : DiskInfo) (rootSize : Nat)
    (swapSize varSize : Option Nat) (rootStart : Nat) (l : PartitionLayout)
    (hok : calculate_partition_layout d rootSize swapSize varSize rootStart = CalcResult.ok l)
    (hroot : 512 ≤ rootSize)
    (hswap : swapSize.getD 0 = 0 ∨ 512 ≤ swapSize.getD 0)
    (hvar : varSize.getD 0 = 0 ∨ 512 ≤ varSize.getD 0)
    (hb1 : rootStart ≤ 1152921504606846976)
    (hb2 : rootSize ≤ 1152921504606846976)
    (hb3 : swapSize.getD 0 ≤ 1152921504606846976)
    (hb4 : varSize.getD 0 ≤ 1152921504606846976) :
    (0 < swapSize.getD 0 → l.root_start < l.swap_start)
    ∧ (0 < swapSize.getD 0 → 0 < varSize.getD 0 → l.swap_start < l.var_start)
    ∧ (swapSize.getD 0 = 0 → 0 < varSize.getD 0 → l.root_start < l.var_start)
    ∧ (0 < varSize.getD 0 → l.var_start < l.home_start)
    ∧ (varSize.getD 0 = 0 → 0 < swapSize.getD 0 → l.swap_start < l.home_start)
    ∧ (varSize.getD 0 = 0 → swapSize.getD 0 = 0 → l.root_start < l.home_start)
    ∧ (0 < swapSize.getD 0 → rangesDisjoint l.root_start l.root_end l.swap_start l.swap_end)
    ∧ (0 < varSize.getD 0 → rangesDisjoint l.root_start l.root_end l.var_start l.var_end)
    ∧ rangesDisjoint l.root_start l.root_end l.home_start l.home_end
    ∧ (0 < swapSize.getD 0 → 0 < varSize.getD 0 →
        rangesDisjoint l.swap_start l.swap_end l.var_start l.var_end)
    ∧ (0 < swapSize.getD 0 → rangesDisjoint l.swap_start l.swap_end l.home_start l.home_end)
    ∧ (0 < varSize.getD 0 → rangesDisjoint l.var_start l.var_end l.home_start l.home_end)
    ∧ (0 < swapSize.getD 0 → l.swap_start = align_sector (l.root_end + 1))
    ∧ (0 < varSize.getD 0 → 0 < swapSize.getD 0 → l.var_start = align_sector (l.swap_end + 1))
    ∧ (0 < varSize.getD 0 → swapSize.getD 0 = 0 → l.var_start = align_sector (l.root_end + 1))
    ∧ (0 < varSize.getD 0 → l.home_start = align_sector (l.var_end + 1))
    ∧ (varSize.getD 0 = 0 → 0 < swapSize.getD 0 → l.home_start = align_sector (l.swap_end + 1))
    ∧ (varSize.getD 0 = 0 → swapSize.getD 0 = 0 → l.home_start = align_sector (l.root_end + 1)) := by
  obtain ⟨hrs, hre, hsst, hsen, hvst, hven, hhst, hhen, _, _, _, _, _⟩ :=
    calc_ok_fields d rootSize swapSize varSize rootStart l hok
  have h1rs : 1 ≤ rootSize / SECTOR_SIZE := by unfold SECTOR_SIZE; omega
  have hrsle : rootSize / SECTOR_SIZE ≤ rootSize := Nat.div_le_self _ _
  have eRE : l.root_end = alignN (rootStart + rootSize / SECTOR_SIZE) - 1 := by
    rw [hre]
    unfold rootEndCalc
    exact wrapped_end_eq rootStart (rootSize / SECTOR_SIZE) (by omega) (by omega)
  have hAge := alignN_ge (rootStart + rootSize / SECTOR_SIZE)
  have hAle := alignN_le (rootStart + rootSize / SECTOR_SIZE)
  have hAmod := alignN_mod (rootStart + rootSize / SECTOR_SIZE)
  by_cases hS : 0 < swapSize.getD 0
  · have h1ss : 1 ≤ swapSize.getD 0 / SECTOR_SIZE := by
      rcases hswap with h | h <;> unfold SECTOR_SIZE <;> omega
    have hssle : swapSize.getD 0 / SECTOR_SIZE ≤ swapSize.getD 0 := Nat.div_le_self _ _
    have eSS : l.swap_start = alignN (rootStart + rootSize / SECTOR_SIZE) := by
      rw [hsst]
      unfold swapStartCalc
      rw [if_pos hS, eRE]
      exact align_next_of_aligned _ hAmod (by omega) (by omega)
    have eSE : l.swap_end = alignN (alignN (rootStart + rootSize / SECTOR_SIZE)
        + swapSize.getD 0 / SECTOR_SIZE) - 1 := by
      rw [hsen]
      unfold swapEndCalc
      rw [if_pos hS, eSS]
      exact wrapped_end_eq _ _ (by omega) (by omega)
    have hBge := alignN_ge (alignN (rootStart + rootSize / SECTOR_SIZE)
        + swapSize.getD 0 / SECTOR_SIZE)
    have hBle := alignN_le (alignN (rootStart + rootSize / SECTOR_SIZE)
        + swapSize.getD 0 / SECTOR_SIZE)
    have hBmod := alignN_mod (alignN (rootStart + rootSize / SECTOR_SIZE)
        + swapSize.getD 0 / SECTOR_SIZE)
    by_cases hV : 0 < varSize.getD 0
    · have h1vs : 1 ≤ varSize.getD 0 / SECTOR_SIZE := by
        rcases hvar with h | h <;> unfold SECTOR_SIZE <;> omega
      have hvsle : varSize.getD 0 / SECTOR_SIZE ≤ varSize.getD 0 := Nat.div_le_self _ _
      have eVS : l.var_start = alignN (alignN (rootStart + rootSize / SECTOR_SIZE)
          + swapSize.getD 0 / SECTOR_SIZE) := by
        rw [hvst]
        unfold varStartCalc
        rw [if_pos hV, if_pos hS, eSE]
        exact align_next_of_aligned _ hBmod (by omega) (by omega)
      have eVE : l.var_end = alignN (alignN (alignN (rootStart + rootSize / SECTOR_SIZE)
          + swapSize.getD 0 / SECTOR_SIZE) + varSize.getD 0 / SECTOR_SIZE) - 1 := by
        rw [hven]
        unfold varEndCalc
        rw [if_pos hV, eVS]
        exact wrapped_end_eq _ _ (by omega) (by omega)
      have hCge := alignN_ge (alignN (alignN (rootStart + rootSize / SECTOR_SIZE)
          + swapSize.getD 0 / SECTOR_SIZE) + varSize.getD 0 / SECTOR_SIZE)
      have hCle := alignN_le (alignN (alignN (rootStart + rootSize / SECTOR_SIZE)
          + swapSize.getD 0 / SECTOR_SIZE) + varSize.getD 0 / SECTOR_SIZE)
      have hCmod := alignN_mod (alignN (alignN (rootStart + rootSize / SECTOR_SIZE)
          + swapSize.getD 0 / SECTOR_SIZE) + varSize.getD 0 / SECTOR_SIZE)
      have eHS : l.home_start = alignN (alignN (alignN (rootStart + rootSize / SECTOR_SIZE)
          + swapSize.getD 0 / SECTOR_SIZE) + varSize.getD 0 / SECTOR_SIZE) := by
        rw [hhst]
        unfold homeStartCalc
        rw [if_pos hV, eVE]
        exact align_next_of_aligned _ hCmod (by omega) (by omega)
      refine ⟨?_, ?_, ?_, ?_, ?_, ?_, ?_, ?_, ?_, ?_, ?_, ?_, ?_, ?_, ?_, ?_, ?_, ?_⟩
      · intro _; rw [hrs, eSS]; omega
      · intro _ _; rw [eSS, eVS]; omega
      · intro h _; exact absurd h (by omega)
      · intro _; rw [eVS, eHS]; omega
      · intro h _; exact absurd h (by omega)
      · intro h _; exact absurd h (by omega)
      · intro _
        exact rangesDisjoint_of_lt _ _ _ _ (by rw [eRE, eSS]; omega)
      · intro _
        exact rangesDisjoint_of_lt _ _ _ _ (by rw [eRE, eVS]; omega)
      · exact rangesDisjoint_of_lt _ _ _ _ (by rw [eRE, eHS]; omega)
      · intro _ _
        exact rangesDisjoint_of_lt _ _ _ _ (by rw [eSE, eVS]; omega)
      · intro _
        exact rangesDisjoint_of_lt _ _ _ _ (by rw [eSE, eHS]; omega)
      · intro _
        exact rangesDisjoint_of_lt _ _ _ _ (by rw [eVE, eHS]; omega)
      · intro _
        rw [eSS, eRE]
        have h9 : alignN (rootStart + rootSize / SECTOR_SIZE) - 1 + 1
            = alignN (rootStart + rootSize / SECTOR_SIZE) := by omega
        rw [h9, align_sector_eq_alignN _ (by unfold U64MOD; omega), alignN_of_aligned _ hAmod]
      · intro _ _
        rw [eVS, eSE]
        have h9 : alignN (alignN (rootStart + rootSize / SECTOR_SIZE)
            + swapSize.getD 0 / SECTOR_SIZE) - 1 + 1
            = alignN (alignN (rootStart + rootSize / SECTOR_SIZE)
              + swapSize.getD 0 / SECTOR_SIZE) := by omega
        rw [h9, align_sector_eq_alignN _ (by unfold U64MOD; omega), alignN_of_aligned _ hBmod]
      · intro _ h; exact absurd h (by omega)
      · intro _
        rw [eHS, eVE]
        have h9 : alignN (alignN (alignN (rootStart + rootSize / SECTOR_SIZE)
            + swapSize.getD 0 / SECTOR_SIZE) + varSize.getD 0 / SECTOR_SIZE) - 1 + 1
            = alignN (alignN (alignN (rootStart + rootSize / SECTOR_SIZE)
              + swapSize.getD 0 / SECTOR_SIZE) + varSize.getD 0 / SECTOR_SIZE) := by omega
        rw [h9, align_sector_eq_alignN _ (by unfold U64MOD; omega), alignN_of_aligned _ hCmod]
      · intro h _; exact absurd h (by omega)
      · intro h _; exact absurd h (by omega)
    · have eVS0 : l.var_start = 0 := by rw [hvst]; unfold varStartCalc; rw [if_neg hV]
      have eVE0 : l.var_end = 0 := by rw [hven]; unfold varEndCalc; rw [if_neg hV]
      have eHS : l.home_start = alignN (alignN (rootStart + rootSize / SECTOR_SIZE)
          + swapSize.getD 0 / SECTOR_SIZE) := by
        rw [hhst]
        unfold homeStartCalc
        rw [if_neg hV, if_pos hS, eSE]
        exact align_next_of_aligned _ hBmod (by omega) (by omega)
      refine ⟨?_, ?_, ?_, ?_, ?_, ?_, ?_, ?_, ?_, ?_, ?_, ?_, ?_, ?_, ?_, ?_, ?_, ?_⟩
      · intro _; rw [hrs, eSS]; omega
      · intro _ h; exact absurd h hV
      · intro h _; exact absurd h (by omega)
      · intro h; exact absurd h hV
      · intro _ _; rw [eSS, eHS]; omega
      · intro _ h; exact absurd h (by omega)
      · intro _
        exact rangesDisjoint_of_lt _ _ _ _ (by rw [eRE, eSS]; omega)
      · intro h; exact absurd h hV
      · exact rangesDisjoint_of_lt _ _ _ _ (by rw [eRE, eHS]; omega)
      · intro _ h; exact absurd h hV
      · intro _
        exact rangesDisjoint_of_lt _ _ _ _ (by rw [eSE, eHS]; omega)
      · intro h; exact absurd h hV
      · intro _
        rw [eSS, eRE]
        have h9 : alignN (rootStart + rootSize / SECTOR_SIZE) - 1 + 1
            = alignN (rootStart + rootSize / SECTOR_SIZE) := by omega
        rw [h9, align_sector_eq_alignN _ (by unfold U64MOD; omega), alignN_of_aligned _ hAmod]
      · intro h; exact absurd h hV
      · intro h; exact absurd h hV
      · intro h; exact absurd h hV
      · intro _ _
        rw [eHS, eSE]
        have h9 : alignN (alignN (rootStart + rootSize / SECTOR_SIZE)
            + swapSize.getD 0 / SECTOR_SIZE) - 1 + 1
            = alignN (alignN (rootStart + rootSize / SECTOR_SIZE)
              + swapSize.getD 0 / SECTOR_SIZE) := by omega
        rw [h9, align_sector_eq_alignN _ (by unfold U64MOD; omega), alignN_of_aligned _ hBmod]
      · intro _ h; exact absurd h (by omega)
  · have eSS0 : l.swap_start = 0 := by rw [hsst]; unfold swapStartCalc; rw [if_neg hS]
    have eSE0 : l.swap_end = 0 := by rw [hsen]; unfold swapEndCalc; rw [if_neg hS]
    by_cases hV : 0 < varSize.getD 0
    · have h1vs : 1 ≤ varSize.getD 0 / SECTOR_SIZE := by
        rcases hvar with h | h <;> unfold SECTOR_SIZE <;> omega
      have hvsle : varSize.getD 0 / SECTOR_SIZE ≤ varSize.getD 0 := Nat.div_le_self _ _
      have eVS : l.var_start = alignN (rootStart + rootSize / SECTOR_SIZE) := by
        rw [hvst]
        unfold varStartCalc
        rw [if_pos hV, if_neg hS, eRE]
        exact align_next_of_aligned _ hAmod (by omega) (by omega)
      have eVE : l.var_end = alignN (alignN (rootStart + rootSize / SECTOR_SIZE)
          + varSize.getD 0 / SECTOR_SIZE) - 1 := by
        rw [hven]
        unfold varEndCalc
        rw [if_pos hV, eVS]
        exact wrapped_end_eq _ _ (by omega) (by omega)
      have hCge := alignN_ge (alignN (rootStart + rootSize / SECTOR_SIZE)
          + varSize.getD 0 / SECTOR_SIZE)
      have hCle := alignN_le (alignN (rootStart + rootSize / SECTOR_SIZE)
          + varSize.getD 0 / SECTOR_SIZE)
      have hCmod := alignN_mod (alignN (rootStart + rootSize / SECTOR_SIZE)
          + varSize.getD 0 / SECTOR_SIZE)
      have eHS : l.home_start = alignN (alignN (rootStart + rootSize / SECTOR_SIZE)
          + varSize.getD 0 / SECTOR_SIZE) := by
        rw [hhst]
        unfold homeStartCalc
        rw [if_pos hV, eVE]
        exact align_next_of_aligned _ hCmod (by omega) (by omega)
      refine ⟨?_, ?_, ?_, ?_, ?_, ?_, ?_, ?_, ?_, ?_, ?_, ?_, ?_, ?_, ?_, ?_, ?_, ?_⟩
      · intro h; exact absurd h hS
      · intro h; exact absurd h hS
      · intro _ _; rw [hrs, eVS]; omega
      · intro _; rw [eVS, eHS]; omega
      · intro _ h; exact absurd h hS
      · intro h _; exact absurd h (by omega)
      · intro h; exact absurd h hS
      · intro _
        exact rangesDisjoint_of_lt _ _ _ _ (by rw [eRE, eVS]; omega)
      · exact rangesDisjoint_of_lt _ _ _ _ (by rw [eRE, eHS]; omega)
      · intro h; exact absurd h hS
      · intro h; exact absurd h hS
      · intro _
        exact rangesDisjoint_of_lt _ _ _ _ (by rw [eVE, eHS]; omega)
      · intro h; exact absurd h hS
      · intro _ h; exact absurd h hS
      · intro _ _
        rw [eVS, eRE]
        have h9 : alignN (rootStart + rootSize / SECTOR_SIZE) - 1 + 1
            = alignN (rootStart + rootSize / SECTOR_SIZE) := by omega
        rw [h9, align_sector_eq_alignN _ (by unfold U64MOD; omega), alignN_of_aligned _ hAmod]
      · intro _
        rw [eHS, eVE]
        have h9 : alignN (alignN (rootStart + rootSize / SECTOR_SIZE)
            + varSize.getD 0 / SECTOR_SIZE) - 1 + 1
            = alignN (alignN (rootStart + rootSize / SECTOR_SIZE)
              + varSize.getD 0 / SECTOR_SIZE) := by omega
        rw [h9, align_sector_eq_alignN _ (by unfold U64MOD; omega), alignN_of_aligned _ hCmod]
      · intro _ h; exact absurd h hS
      · intro h _; exact absurd h (by omega)
    · have eVS0 : l.var_start = 0 := by rw [hvst]; unfold varStartCalc; rw [if_neg hV]
      have eVE0 : l.var_end = 0 := by rw [hven]; unfold varEndCalc; rw [if_neg hV]
      have eHS : l.home_start = alignN (rootStart + rootSize / SECTOR_SIZE) := by
        rw [hhst]
        unfold homeStartCalc
        rw [if_neg hV, if_neg hS, eRE]
        exact align_next_of_aligned _ hAmod (by omega) (by omega)
      refine ⟨?_, ?_, ?_, ?_, ?_, ?_, ?_, ?_, ?_, ?_, ?_, ?_, ?_, ?_, ?_, ?_, ?_, ?_⟩
      · intro h; exact absurd h hS
      · intro h; exact absurd h hS
      · intro _ h; exact absurd h hV
      · intro h; exact absurd h hV
      · intro _ h; exact absurd h hS
      · intro _ _; rw [hrs, eHS]; omega
      · intro h; exact absurd h hS
      · intro h; exact absurd h hV
      · exact rangesDisjoint_of_lt _ _ _ _ (by rw [eRE, eHS]; omega)
      · intro h; exact absurd h hS
      · intro h; exact absurd h hS
      · intro h; exact absurd h hV
      · intro h; exact absurd h hS
      · intro h; exact absurd h hV
      · intro h; exact absurd h hV
      · intro h; exact absurd h hV
      · intro _ h; exact absurd h hS
      · intro _ _
        rw [eHS, eRE]
        have h9 : alignN (rootStart + rootSize / SECTOR_SIZE) - 1 + 1
            = alignN (rootStart + rootSize / SECTOR_SIZE) := by omega
        rw [h9, align_sector_eq_alignN _ (by unfold U64MOD; omega), alignN_of_aligned _ hAmod]

/-- Concrete 256 GiB non-SD disk used for the C1 counterexample. -/
def dX1 : DiskInfo := ⟨"/dev/sdb", 549755813888, 1073741824, false, "/dev/sdbp2"⟩

/-- Layout produced on dX1 for a requested root size of 0 bytes. -/
def lX1 : PartitionLayout :=
  ⟨0, 0, 0, 549754765312, 2048, 2047, 0, 0, 0, 0, 2048, 1073741823⟩

/-- C1 counterexample: with a requested root size of 0 bytes the planner
succeeds, yet the root and home start sectors coincide at 2048, so the
start sectors of the returned ranges are not strictly increasing as the
claim states for every input on which the planner succeeds. -/
theorem c1_layout_order_counterexample :
    calculate_partition_layout dX1 0 none none 2048 = CalcResult.ok lX1
    ∧ ¬ (lX1.root_start < lX1.home_start) := by
  decide

/-- Concrete 64 GiB non-SD disk used for the C1 witness. -/
def dW1 : DiskInfo := ⟨"/dev/sda", 68719476736, 134217728, false, "/dev/sdap2"⟩

/-- Layout produced on dW1 for root 8 GiB, swap 1 GiB, var 2 GiB starting at
sector 8192. -/
def lW1 : PartitionLayout :=
  ⟨8589934592, 1073741824, 2147483648, 56904122368, 8192, 16785407,
    16785408, 18882559, 18882560, 23076863, 23076864, 134217727⟩

/-- C1 witness: the amended ordering theorem applied to a concrete 64 GiB
disk with root, swap and var all requested. -/
theorem c1_layout_order_amended_witness :
    calculate_partition_layout dW1 8589934592 (some 1073741824) (some 2147483648) 8192
      = CalcResult.ok lW1
    ∧ lW1.root_start < lW1.swap_start
    ∧ lW1.swap_start < lW1.var_start
    ∧ lW1.var_start < lW1.home_start
    ∧ rangesDisjoint lW1.root_start lW1.root_end lW1.swap_start lW1.swap_end
    ∧ lW1.swap_start = align_sector (lW1.root_end + 1) := by
  have hok : calculate_partition_layout dW1 8589934592 (some 1073741824)
      (some 2147483648) 8192 = CalcResult.ok lW1 := by decide
  have h := c1_layout_order_amended dW1 8589934592 (some 1073741824) (some 2147483648)
    8192 lW1 hok (by decide) (by decide) (by decide) (by decide) (by decide)
    (by decide) (by decide)
  exact ⟨hok, h.1 (by decide), h.2.1 (by decide) (by decide), h.2.2.2.1 (by decide),
    h.2.2.2.2.2.2.1 (by decide), h.2.2.2.2.2.2.2.2.2.2.2.2.1 (by decide)⟩

/-- C2 (amended): in every successful layout, the swap, var and home start
sectors (when those partitions are present) are multiples of the 2048-sector
alignment boundary, and the root, swap and var end sectors equal
align(start + requested_sectors) - 1 in wrapping 64-bit arithmetic; but the
root start sector is the existing partition-table start passed through
unchanged (not aligned by the planner), and the home end sector is the last
disk sector total_sectors - 1 rather than an align formula. -/
theorem c2_alignment_amended (d : DiskInfo) (rootSize : Nat)
    (swapSize varSize : Option Nat) (rootStart : Nat) (l : PartitionLayout)
    (hok : calculate_partition_layout d rootSize swapSize varSize rootStart
      = CalcResult.ok l) :
    l.root_start = rootStart
    ∧ (0 < swapSize.getD 0 → l.swap_start % 2048 = 0)
    ∧ (0 < varSize.getD 0 → l.var_start % 2048 = 0)
    ∧ l.home_start % 2048 = 0
    ∧ l.root_end = sub64 (align_sector (add64 l.root_start (rootSize / SECTOR_SIZE))) 1
    ∧ (0 < swapSize.getD 0 →
        l.swap_end = sub64 (align_sector (add64 l.swap_start (swapSize.getD 0 / SECTOR_SIZE))) 1)
    ∧ (0 < varSize.getD 0 →
        l.var_end = sub64 (align_sector (add64 l.var_start (varSize.getD 0 / SECTOR_SIZE))) 1)
    ∧ l.home_end = sub64 d.size_sectors 1 := by
  obtain ⟨hrs, hre, hsst, hsen, hvst, hven, hhst, hhen, _, _, _, _, _⟩ :=
    calc_ok_fields d rootSize swapSize varSize rootStart l hok
  refine ⟨hrs, ?_, ?_, ?_, ?_, ?_, ?_, hhen⟩
  · intro h
    rw [hsst]
    unfold swapStartCalc
    rw [if_pos h]
    exact align_sector_mod2048 _
  · intro h
    rw [hvst]
    unfold varStartCalc
    rw [if_pos h]
    split <;> exact align_sector_mod2048 _
  · rw [hhst]
    unfold homeStartCalc
    split
    · exact align_sector_mod2048 _
    · split <;> exact align_sector_mod2048 _
  · rw [hre, hrs]
    rfl
  · intro h
    rw [hsen]
    unfold swapEndCalc
    rw [if_pos h]
  · intro h
    rw [hven]
    unfold varEndCalc
    rw [if_pos h]

/-- Concrete 64 GiB non-SD disk used for the C2 counterexample. -/
def dX2 : DiskInfo := ⟨"/dev/sdc", 68719476736, 134217728, false, "/dev/sdcp2"⟩

/-- Layout produced on dX2 for an 8 GiB root whose existing partition starts
at the unaligned sector 34. -/
def lX2 : PartitionLayout :=
  ⟨8589934592, 0, 0, 60128493568, 34, 16779263, 0, 0, 0, 0, 16779264, 134217727⟩

/-- C2 counterexample: the planner succeeds with a root partition whose
start sector 34 is not a multiple of the 2048-sector alignment boundary,
because the planner passes the existing partition-table start through
unchanged; so not every partition start sector in a returned layout is
aligned, contrary to the claim. -/
theorem c2_alignment_counterexample :
    calculate_partition_layout dX2 8589934592 none none 34 = CalcResult.ok lX2
    ∧ lX2.root_start % 2048 ≠ 0 := by
  decide

/-- Concrete 64 GiB non-SD disk used for the C2 witness. -/
def dW2 : DiskInfo := ⟨"/dev/sdd", 68719476736, 134217728, false, "/dev/sddp2"⟩

/-- Layout produced on dW2 for root 8 GiB and swap 1 GiB starting at sector
8192. -/
def lW2 : PartitionLayout :=
  ⟨8589934592, 1073741824, 0, 59051606016, 8192, 16785407,
    16785408, 18882559, 0, 0, 18882560, 134217727⟩

/-- C2 witness: the amended alignment theorem applied to a concrete 64 GiB
disk with root and swap requested. -/
theorem c2_alignment_amended_witness :
    calculate_partition_layout dW2 8589934592 (some 1073741824) none 8192
      = CalcResult.ok lW2
    ∧ lW2.root_start = 8192
    ∧ lW2.swap_start % 2048 = 0
    ∧ lW2.home_start % 2048 = 0 := by
  have hok : calculate_partition_layout dW2 8589934592 (some 1073741824) none 8192
      = CalcResult.ok lW2 := by decide
  have h := c2_alignment_amended dW2 8589934592 (some 1073741824) none 8192 lW2 hok
  exact ⟨hok, h.1, h.2.1 (by decide), h.2.2.2.1⟩

/-- Concrete 64 GiB non-SD disk used for the C3 witness. -/
def dW3 : DiskInfo := ⟨"/dev/sde", 68719476736, 134217728, false, "/dev/sdep2"⟩

/-- Layout produced on dW3 for root 8 GiB and var 2 GiB starting at sector
8192. -/
def lW3 : PartitionLayout :=
  ⟨8589934592, 0, 2147483648, 57977864192, 8192, 16785407,
    0, 0, 16785408, 20979711, 20979712, 134217727⟩

/-- C3 witness: the home-floor theorem applied to a concrete successful
layout, whose computed home size 57977864192 is at least half the
68719476736-byte disk. -/
theorem c3_home_floor_witness :
    calculate_partition_layout dW3 8589934592 none (some 2147483648) 8192
      = CalcResult.ok lW3
    ∧ dW3.size_bytes / 2 ≤ lW3.home_size_bytes := by
  have hok : calculate_partition_layout dW3 8589934592 none (some 2147483648) 8192
      = CalcResult.ok lW3 := by decide
  exact ⟨hok, (c3_home_floor dW3 8589934592 none (some 2147483648) 8192).1 lW3 hok⟩

/-- Destructive commands issued by the migration steps. -/
inductive MigAction where
  | copyVar
  | deleteVar
  | copyHome
  | deleteHome
deriving DecidableEq, Repr

/-- migrate_var_data from the source, as a function of three oracles: whether
the source subtree /mnt/root/var exists, whether the rsync copy command
succeeds, and whether the rm deletion command succeeds (a failed spawn and a
non-zero exit are both failures, since both abort the step). Returns the
sequence of issued commands and whether the step returned Ok. -/
def migrate_var_data (srcExists copyOk deleteOk : Bool) : List MigAction × Bool :=
  if srcExists = false then ([], true)
  else if copyOk = false then ([MigAction.copyVar], false)
  else if deleteOk = false then ([MigAction.copyVar, MigAction.deleteVar], false)
  else ([MigAction.copyVar, MigAction.deleteVar], true)

/-- migrate_home_data from the source, analogous to migrate_var_data with
source subtree /mnt/root/home. -/
def migrate_home_data (srcExists copyOk deleteOk : Bool) : List MigAction × Bool :=
  if srcExists = false then ([], true)
  else if copyOk = false then ([MigAction.copyHome], false)
  else if deleteOk = false then ([MigAction.copyHome, MigAction.deleteHome], false)
  else ([MigAction.copyHome, MigAction.deleteHome], true)

/-- C4: in both migration steps, deletion of the old subtree is issued only
after a fully successful copy — a failed copy makes the step fail with no
delete ever issued, and a deletion in the trace implies the source existed,
the copy succeeded, and the trace is exactly copy followed by delete; a
missing source subtree makes the step succeed with no commands at all. -/
theorem c4_migration_copy_before_delete (s c dl : Bool) :
    (s = true → c = false →
      migrate_var_data s c dl = ([MigAction.copyVar], false)
      ∧ migrate_home_data s c dl = ([MigAction.copyHome], false))
    ∧ (s = false →
      migrate_var_data s c dl = ([], true)
      ∧ migrate_home_data s c dl = ([], true))
    ∧ (MigAction.deleteVar ∈ (migrate_var_data s c dl).1 →
      s = true ∧ c = true
      ∧ (migrate_var_data s c dl).1 = [MigAction.copyVar, MigAction.deleteVar])
    ∧ (MigAction.deleteHome ∈ (migrate_home_data s c dl).1 →
      s = true ∧ c = true
      ∧ (migrate_home_data s c dl).1 = [MigAction.copyHome, MigAction.deleteHome]) := by
  cases s <;> cases c <;> cases dl <;> decide

/-- C4 witness: a failing copy on an existing /var subtree issues only the
copy and fails, and a missing /home subtree succeeds with no commands. -/
theorem c4_migration_copy_before_delete_witness :
    migrate_var_data true false true = ([MigAction.copyVar], false)
    ∧ migrate_home_data false true true = ([], true) :=
  ⟨((c4_migration_copy_before_delete true false true).1 rfl rfl).1,
    ((c4_migration_copy_before_delete false true true).2.1 rfl).2⟩

/-- Mount commands issued by mount_partitions. -/
inductive MountAction where
  | mRoot
  | mVar
  | mHome
deriving DecidableEq, Repr

/-- Oracles for mount_partitions: whether a var partition was created, and
the success of each individual mount command. -/
structure MountWorld where
  has_var : Bool
  root_ok : Bool
  var_ok : Bool
  home_ok : Bool
deriving DecidableEq, Repr

/-- mount_partitions from the source: mount root, then var when present,
then home, bailing out on the first failure. Returns the attempted mounts
in order and whether the step returned Ok. -/
def mount_partitions (w : MountWorld) : List MountAction × Bool :=
  if w.root_ok = false then ([MountAction.mRoot], false)
  else
    if w.has_var then
      if w.var_ok = false then ([MountAction.mRoot, MountAction.mVar], false)
      else if w.home_ok = false then
        ([MountAction.mRoot, MountAction.mVar, MountAction.mHome], false)
      else ([MountAction.mRoot, MountAction.mVar, MountAction.mHome], true)
    else if w.home_ok = false then ([MountAction.mRoot, MountAction.mHome], false)
    else ([MountAction.mRoot, MountAction.mHome], true)

/-- Unmount commands issued by unmount_all. -/
inductive UAction where
  | umVar
  | umHome
  | umRoot
deriving DecidableEq, Repr

/-- Oracles for unmount_all: whether each mount-point directory exists (the
step skips absent directories) and whether each umount command succeeds
(its result is only logged, never propagated). -/
structure UnmountWorld where
  var_exists : Bool
  home_exists : Bool
  root_exists : Bool
  var_ok : Bool
  home_ok : Bool
  root_ok : Bool
deriving DecidableEq, Repr

/-- unmount_all from the source: iterate over the mount points in the order
/mnt/var, /mnt/home, /mnt/root, attempt umount on each existing one, log any
failure as a warning, and always return Ok. -/
def unmount_all (w : UnmountWorld) : List UAction × Bool :=
  ((if w.var_exists then [UAction.umVar] else [])
    ++ (if w.home_exists then [UAction.umHome] else [])
    ++ (if w.root_exists then [UAction.umRoot] else []), true)

/-- C7 (amended): the final unmount step attempts var, then home, then root
(each only when its mount point exists) — not home, var, root as the claim
states, so it is not the exact reverse of the mount order — it always
returns success regardless of individual umount failures, and the mount
step mounts root, then var when present, then home. -/
theorem c7_unmount_order_amended (uw : UnmountWorld) (mw : MountWorld) :
    (unmount_all uw).2 = true
    ∧ (unmount_all uw).1 =
        (if uw.var_exists then [UAction.umVar] else [])
        ++ (if uw.home_exists then [UAction.umHome] else [])
        ++ (if uw.root_exists then [UAction.umRoot] else [])
    ∧ ((mount_partitions mw).2 = true →
        (mount_partitions mw).1 =
          [MountAction.mRoot]
          ++ (if mw.has_var then [MountAction.mVar] else [])
          ++ [MountAction.mHome]) := by
  refine ⟨rfl, rfl, ?_⟩
  obtain ⟨hv, ro, vo, ho⟩ := mw
  cases hv <;> cases ro <;> cases vo <;> cases ho <;> simp [mount_partitions]

/-- All mount points exist and every umount succeeds. -/
def uwX : UnmountWorld := ⟨true, true, true, true, true, true⟩

/-- C7 counterexample: with all three mount points present, unmount_all
attempts var, home, root in that order, which differs from the order home,
var, root asserted by the claim. -/
theorem c7_unmount_order_counterexample :
    unmount_all uwX = ([UAction.umVar, UAction.umHome, UAction.umRoot], true)
    ∧ [UAction.umVar, UAction.umHome, UAction.umRoot]
      ≠ [UAction.umHome, UAction.umVar, UAction.umRoot] := by
  decide

/-- All mount points exist but every umount command fails. -/
def uwW : UnmountWorld := ⟨true, true, true, false, false, false⟩

/-- A mount world with var present and all mounts succeeding. -/
def mwW : MountWorld := ⟨true, true, true, true⟩

/-- C7 witness: even with every umount command failing the unmount step
returns success, and a fully successful mount run mounts root, var, home in
order. -/
theorem c7_unmount_order_amended_witness :
    (unmount_all uwW).2 = true
    ∧ (mount_partitions mwW).1 = [MountAction.mRoot, MountAction.mVar, MountAction.mHome] :=
  ⟨(c7_unmount_order_amended uwW mwW).1,
    ((c7_unmount_order_amended uwW mwW).2.2 (by decide)).trans (by decide)⟩

/-- Fatal error classes of the main pipeline, in source order of the bail
sites. activeRootDisk models the UnsafeTargetError abort, policySdSwap and
policySdVar the PolicyError aborts for swap or var requested on SD media. -/
inductive MainError where
  | mustBeRoot
  | depsFailed
  | parseFailed
  | policyRootSize
  | diskInfoFailed
  | mountsReadFailed
  | activeRootDisk
  | policySdSwap
  | policySdVar
  | partStartFailed
  | insufficientSpace
  | shrinkFailed
  | resizeFailed
  | swapCreateFailed
  | varCreateFailed
  | homeCreateFailed
  | mkMountPointsFailed
  | mountFailed
  | migrateVarFailed
  | migrateHomeFailed
  | fstabFailed
deriving DecidableEq, Repr

/-- Outcome of a run of main: clean exit or a fatal bail. -/
inductive RunResult where
  | ok
  | fatal (e : MainError)
deriving DecidableEq, Repr

/-- Steps attempted by main after the confirmation prompt; the trace of
these is the record of destructive activity. -/
inductive MainAction where
  | fsck
  | shrink
  | resizeRoot
  | createSwap
  | createVar
  | createHome
  | mkMountPoints
  | mount (a : MountAction)
  | mig (a : MigAction)
  | updateFstab
  | um (a : UAction)
deriving DecidableEq, Repr

/-- Oracles for the effectful outcome of every destructive step of main. -/
structure StepOracle where
  fsck_ok : Bool
  shrink_ok : Bool
  resize_ok : Bool
  swap_create_ok : Bool
  var_create_ok : Bool
  home_create_ok : Bool
  mkmounts_ok : Bool
  mount_root_ok : Bool
  mount_var_ok : Bool
  mount_home_ok : Bool
  var_src_exists : Bool
  var_copy_ok : Bool
  var_delete_ok : Bool
  home_src_exists : Bool
  home_copy_ok : Bool
  home_delete_ok : Bool
  fstab_ok : Bool
  unm : UnmountWorld
deriving DecidableEq, Repr

/-- Step 12 of main: unmount everything; never fatal. -/
def phase_unmount (st : StepOracle) (t : List MainAction) : List MainAction × RunResult :=
  (t ++ (unmount_all st.unm).1.map MainAction.um, RunResult.ok)

/-- Step 11 of main: update the fstab of the mounted root; fatal on failure. -/
def phase_fstab (st : StepOracle) (t : List MainAction) : List MainAction × RunResult :=
  if st.fstab_ok = false then (t ++ [MainAction.updateFstab], RunResult.fatal MainError.fstabFailed)
  else phase_unmount st (t ++ [MainAction.updateFstab])

/-- Step 10 of main: migrate /home data; fatal on failure. -/
def phase_migrate_home (st : StepOracle) (t : List MainAction) : List MainAction × RunResult :=
  let r := migrate_home_data st.home_src_exists st.home_copy_ok st.home_delete_ok
  if r.2 = false then (t ++ r.1.map MainAction.mig, RunResult.fatal MainError.migrateHomeFailed)
  else phase_fstab st (t ++ r.1.map MainAction.mig)

/-- Step 9 of main: migrate /var data when a var partition was created;
fatal on failure. -/
def phase_migrate_var (st : StepOracle) (layout : PartitionLayout) (t : List MainAction) :
    List MainAction × RunResult :=
  if 0 < layout.var_size_bytes then
    let r := migrate_var_data st.var_src_exists st.var_copy_ok st.var_delete_ok
    if r.2 = false then (t ++ r.1.map MainAction.mig, RunResult.fatal MainError.migrateVarFailed)
    else phase_migrate_home st (t ++ r.1.map MainAction.mig)
  else phase_migrate_home st t

/-- Step 8 of main: mount the created partitions; fatal on failure. -/
def phase_do_mount (st : StepOracle) (layout : PartitionLayout) (t : List MainAction) :
    List MainAction × RunResult :=
  let r := mount_partitions ⟨decide (0 < layout.var_size_bytes), st.mount_root_ok,
    st.mount_var_ok, st.mount_home_ok⟩
  if r.2 = false then (t ++ r.1.map MainAction.mount, RunResult.fatal MainError.mountFailed)
  else phase_migrate_var st layout (t ++ r.1.map MainAction.mount)

/-- Step 7 of main: create the mount-point directories; fatal on failure. -/
def phase_mkmounts (st : StepOracle) (layout : PartitionLayout) (t : List MainAction) :
    List MainAction × RunResult :=
  if st.mkmounts_ok = false then
    (t ++ [MainAction.mkMountPoints], RunResult.fatal MainError.mkMountPointsFailed)
  else phase_do_mount st layout (t ++ [MainAction.mkMountPoints])

/-- Step 6 of main: create the /home partition; fatal on failure. -/
def phase_create_home (st : StepOracle) (layout : PartitionLayout) (t : List MainAction) :
    List MainAction × RunResult :=
  if st.home_create_ok = false then
    (t ++ [MainAction.createHome], RunResult.fatal MainError.homeCreateFailed)
  else phase_mkmounts st layout (t ++ [MainAction.createHome])

/-- Step 5 of main: create the /var partition when requested; fatal on
failure. -/
def phase_create_var (st : StepOracle) (layout : PartitionLayout) (t : List MainAction) :
    List MainAction × RunResult :=
  if 0 < layout.var_size_bytes then
    if st.var_create_ok = false then
      (t ++ [MainAction.createVar], RunResult.fatal MainError.varCreateFailed)
    else phase_create_home st layout (t ++ [MainAction.createVar])
  else phase_create_home st layout t

/-- Step 4 of main: create the swap partition when requested; fatal on
failure. -/
def phase_create_swap (st : StepOracle) (layout : PartitionLayout) (t : List MainAction) :
    List MainAction × RunResult :=
  if 0 < layout.swap_size_bytes then
    if st.swap_create_ok = false then
      (t ++ [MainAction.createSwap], RunResult.fatal MainError.swapCreateFailed)
    else phase_create_var st layout (t ++ [MainAction.createSwap])
  else phase_create_var st layout t

/-- Steps 1 to 3 of main and the chain into the later phases: a non-zero
exit of the filesystem check is only a warning (a failure to spawn the
check tool at all, which the source would propagate, is not modelled), the
shrink and partition resize are fatal. -/
def destructive_phase (st : StepOracle) (layout : PartitionLayout) :
    List MainAction × RunResult :=
  if st.shrink_ok = false then
    ([MainAction.fsck, MainAction.shrink], RunResult.fatal MainError.shrinkFailed)
  else if st.resize_ok = false then
    ([MainAction.fsck, MainAction.shrink, MainAction.resizeRoot],
      RunResult.fatal MainError.resizeFailed)
  else phase_create_swap st layout [MainAction.fsck, MainAction.shrink, MainAction.resizeRoot]

/-- Parse of an optional size argument: an absent argument stays absent, a
present one must parse, exactly as args.swap_size.map(parse_size).transpose
behaves in main. -/
def parse_opt_size (o : Option String) : Option (Option Nat) :=
  match o with
  | none => some none
  | some s =>
    match parse_size s with
    | none => none
    | some n => some (some n)

/-- check_dependencies from the source, as a function of the dry-run flag
and two oracles: whether any dependency is missing, and whether installing
the missing packages succeeds. With nothing missing the check succeeds
unconditionally; with missing dependencies it still succeeds in dry-run
mode, which only prints what would be installed, and otherwise succeeds
exactly when the installation does. -/
def check_dependencies (dryRun depsMissing installOk : Bool) : Bool :=
  if depsMissing then (if dryRun then true else installOk) else true

/-- All effect-dependent inputs of one run of main: the command-line
arguments, the effective uid test, every external query result, and the
per-step oracles of the destructive phase. deps_missing reports whether the
dependency scan found a missing tool; deps_ok is the outcome of installing
the missing packages when that installation is attempted. -/
structure MainInput where
  euid_is_zero : Bool
  deps_missing : Bool
  deps_ok : Bool
  root_size_arg : String
  swap_size_arg : Option String
  var_size_arg : Option String
  device_arg : String
  device_exists : Bool
  parted_size : Option Nat
  root_part_exists : Bool
  proc_mounts : Option String
  allow_active_disk : Bool
  dry_run : Bool
  root_start_result : Option Nat
  steps : StepOracle

/-- Tail of main after the SD-card policy checks: read the root partition
start sector, compute the layout, stop cleanly in dry-run mode, else run the
destructive phase. -/
def main_layout_stage (inp : MainInput) (d : DiskInfo) (rootBytes : Nat)
    (swapOpt varOpt : Option Nat) : List MainAction × RunResult :=
  match inp.root_start_result with
  | none => ([], RunResult.fatal MainError.partStartFailed)
  | some rstart =>
    match calculate_partition_layout d rootBytes swapOpt varOpt rstart with
    | CalcResult.insufficientSpace => ([], RunResult.fatal MainError.insufficientSpace)
    | CalcResult.ok layout =>
      if inp.dry_run then ([], RunResult.ok)
      else destructive_phase inp.steps layout

/-- SD-card policy checks of main: on SD media a requested swap size, then a
requested var size, each aborts with a PolicyError; there is no override. -/
def main_sd_stage (inp : MainInput) (d : DiskInfo) (rootBytes : Nat)
    (swapOpt varOpt : Option Nat) : List MainAction × RunResult :=
  if d.is_sd_card then
    if swapOpt.isSome then ([], RunResult.fatal MainError.policySdSwap)
    else if varOpt.isSome then ([], RunResult.fatal MainError.policySdVar)
    else main_layout_stage inp d rootBytes swapOpt varOpt
  else main_layout_stage inp d rootBytes swapOpt varOpt

/-- Active-root safety gate of main: skipped entirely under
allow_active_disk, otherwise /proc/mounts is read (a read failure is fatal)
and a positive active-root test aborts with UnsafeTargetError. -/
def main_gate_stage (inp : MainInput) (d : DiskInfo) (rootBytes : Nat)
    (swapOpt varOpt : Option Nat) : List MainAction × RunResult :=
  if inp.allow_active_disk then main_sd_stage inp d rootBytes swapOpt varOpt
  else
    match inp.proc_mounts with
    | none => ([], RunResult.fatal MainError.mountsReadFailed)
    | some m =>
      if is_active_root_disk m d.device then ([], RunResult.fatal MainError.activeRootDisk)
      else main_sd_stage inp d rootBytes swapOpt varOpt

/-- main from the source, as a pure function of MainInput: root check,
dependency check, size parsing and root-size validation, disk inspection,
active-root gate, SD policy, layout planning, then the destructive phase.
The returned list is the trace of attempted destructive steps. -/
def main_flow (inp : MainInput) : List MainAction × RunResult :=
  if inp.euid_is_zero = false then ([], RunResult.fatal MainError.mustBeRoot)
  else if check_dependencies inp.dry_run inp.deps_missing inp.deps_ok = false then
    ([], RunResult.fatal MainError.depsFailed)
  else
    match parse_size inp.root_size_arg with
    | none => ([], RunResult.fatal MainError.parseFailed)
    | some rootBytes =>
      if validate_root_size rootBytes = false then ([], RunResult.fatal MainError.policyRootSize)
      else
        match parse_opt_size inp.swap_size_arg with
        | none => ([], RunResult.fatal MainError.parseFailed)
        | some swapOpt =>
          match parse_opt_size inp.var_size_arg with
          | none => ([], RunResult.fatal MainError.parseFailed)
          | some varOpt =>
            match get_disk_info inp.device_arg inp.device_exists inp.parted_size
                inp.root_part_exists with
            | none => ([], RunResult.fatal MainError.diskInfoFailed)
            | some d => main_gate_stage inp d rootBytes swapOpt varOpt

/-- C5 (amended): on a device classified as an SD card, when every earlier
check passes and a swap or var size is requested, main aborts with a
PolicyError before any destructive step — the trace of destructive actions
is empty — regardless of the allow_active_disk and dry_run flags; the
program offers no override for this SD policy. -/
theorem c5_sd_policy_amended (inp : MainInput) (d : DiskInfo) (rootBytes : Nat)
    (swapOpt varOpt : Option Nat)
    (h1 : inp.euid_is_zero = true) (h2 : inp.deps_ok = true)
    (h3 : parse_size inp.root_size_arg = some rootBytes)
    (h4 : validate_root_size rootBytes = true)
    (h5 : parse_opt_size inp.swap_size_arg = some swapOpt)
    (h6 : parse_opt_size inp.var_size_arg = some varOpt)
    (h7 : get_disk_info inp.device_arg inp.device_exists inp.parted_size
      inp.root_part_exists = some d)
    (h8 : d.is_sd_card = true)
    (h9 : inp.allow_active_disk = true
      ∨ ∃ m, inp.proc_mounts = some m ∧ is_active_root_disk m d.device = false)
    (h10 : swapOpt.isSome = true ∨ varOpt.isSome = true) :
    (main_flow inp).1 = []
    ∧ ((main_flow inp).2 = RunResult.fatal MainError.policySdSwap
       ∨ (main_flow inp).2 = RunResult.fatal MainError.policySdVar) := by
  have hmain : main_flow inp = main_gate_stage inp d rootBytes swapOpt varOpt := by
    simp [main_flow, check_dependencies, h1, h2, h3, h4, h5, h6, h7]
  have hg : main_gate_stage inp d rootBytes swapOpt varOpt
      = main_sd_stage inp d rootBytes swapOpt varOpt := by
    rcases h9 with h9 | ⟨m, hm, hact⟩
    · simp [main_gate_stage, h9]
    · by_cases hA : inp.allow_active_disk = true
      · simp [main_gate_stage, hA]
      · simp only [Bool.not_eq_true] at hA
        simp [main_gate_stage, hA, hm, hact]
  by_cases hsw : swapOpt.isSome = true
  · have hs : main_sd_stage inp d rootBytes swapOpt varOpt
        = ([], RunResult.fatal MainError.policySdSwap) := by
      simp [main_sd_stage, h8, hsw]
    rw [hmain, hg, hs]
    exact ⟨rfl, Or.inl rfl⟩
  · have hsw2 : swapOpt.isSome = false := by simpa using hsw
    have hv : varOpt.isSome = true := by
      rcases h10 with h | h
      · exact absurd h hsw
      · exact h
    have hs : main_sd_stage inp d rootBytes swapOpt varOpt
        = ([], RunResult.fatal MainError.policySdVar) := by
      simp [main_sd_stage, h8, hsw2, hv]
    rw [hmain, hg, hs]
    exact ⟨rfl, Or.inr rfl⟩

/-- Every destructive-step oracle reporting success. -/
def stAll : StepOracle :=
  ⟨true, true, true, true, true, true, true, true, true, true, true, true, true,
    true, true, true, true, ⟨true, true, true, true, true, true⟩⟩

/-- Input for the C5 witness: SD card /dev/mmcblk0 with swap requested and
every earlier check passing. -/
def inpC5w : MainInput :=
  { euid_is_zero := true, deps_missing := false, deps_ok := true, root_size_arg := "8G",
    swap_size_arg := some "1G", var_size_arg := none,
    device_arg := "/dev/mmcblk0", device_exists := true,
    parted_size := some 68719476736, root_part_exists := true,
    proc_mounts := some "/dev/sda1 / ext4 rw 0 0", allow_active_disk := true,
    dry_run := true, root_start_result := some 8192, steps := stAll }

/-- C5 witness: the amended SD-policy theorem applied to the concrete SD
input with a 1 GiB swap request. -/
theorem c5_sd_policy_amended_witness :
    (main_flow inpC5w).1 = []
    ∧ ((main_flow inpC5w).2 = RunResult.fatal MainError.policySdSwap
       ∨ (main_flow inpC5w).2 = RunResult.fatal MainError.policySdVar) :=
  c5_sd_policy_amended inpC5w
    ⟨"/dev/mmcblk0", 68719476736, 134217728, true, "/dev/mmcblk02"⟩
    8589934592 (some 1073741824) none rfl rfl (by decide) (by decide) (by decide)
    (by decide) (by decide) rfl (Or.inl rfl) (Or.inl rfl)

/-- Input for the C5 counterexample: SD card with swap requested and both
caller-controllable flags enabled. -/
def inpC5x : MainInput :=
  { euid_is_zero := true, deps_missing := false, deps_ok := true, root_size_arg := "8G",
    swap_size_arg := some "4G", var_size_arg := none,
    device_arg := "/dev/mmcblk1", device_exists := true,
    parted_size := some 68719476736, root_part_exists := true,
    proc_mounts := some "/dev/sda1 / ext4 rw 0 0", allow_active_disk := true,
    dry_run := true, root_start_result := some 8192, steps := stAll }

/-- C5 counterexample: with every flag the command line offers enabled
(allow_active_disk and dry_run both set), a swap request on an SD device
still aborts with the PolicyError — no input supplies the override whose
existence the claim asserts. -/
theorem c5_sd_policy_counterexample :
    inpC5x.allow_active_disk = true
    ∧ inpC5x.dry_run = true
    ∧ main_flow inpC5x = ([], RunResult.fatal MainError.policySdSwap) := by
  refine ⟨rfl, rfl, ?_⟩
  decide

/-- C6 (amended): when the target device is (or contains) the active root
filesystem and the override flag is not given, main aborts with
UnsafeTargetError with an empty destructive trace, before the SD policy
check, the layout computation and every destructive step; the dependency
check and the size checks precede this gate in execution order, so the
theorem assumes they pass. -/
theorem c6_active_root_gate_amended (inp : MainInput) (d : DiskInfo) (rootBytes : Nat)
    (swapOpt varOpt : Option Nat) (m : String)
    (h1 : inp.euid_is_zero = true) (h2 : inp.deps_ok = true)
    (h3 : parse_size inp.root_size_arg = some rootBytes)
    (h4 : validate_root_size rootBytes = true)
    (h5 : parse_opt_size inp.swap_size_arg = some swapOpt)
    (h6 : parse_opt_size inp.var_size_arg = some varOpt)
    (h7 : get_disk_info inp.device_arg inp.device_exists inp.parted_size
      inp.root_part_exists = some d)
    (h8 : inp.allow_active_disk = false)
    (h9 : inp.proc_mounts = some m)
    (h10 : is_active_root_disk m d.device = true) :
    main_flow inp = ([], RunResult.fatal MainError.activeRootDisk) := by
  have hmain : main_flow inp = main_gate_stage inp d rootBytes swapOpt varOpt := by
    simp [main_flow, check_dependencies, h1, h2, h3, h4, h5, h6, h7]
  rw [hmain]
  simp [main_gate_stage, h8, h9, h10]

/-- Input for the C6 witness: non-SD disk /dev/sdf whose partition 2 is the
mounted root, no override flag. -/
def inpC6w : MainInput :=
  { euid_is_zero := true, deps_missing := false, deps_ok := true, root_size_arg := "8G",
    swap_size_arg := none, var_size_arg := none,
    device_arg := "/dev/sdf", device_exists := true,
    parted_size := some 68719476736, root_part_exists := true,
    proc_mounts := some "/dev/sdf2 / ext4 rw 0 0", allow_active_disk := false,
    dry_run := true, root_start_result := some 8192, steps := stAll }

/-- C6 witness: the amended safety-gate theorem applied to the concrete
active-root input. -/
theorem c6_active_root_gate_amended_witness :
    main_flow inpC6w = ([], RunResult.fatal MainError.activeRootDisk) :=
  c6_active_root_gate_amended inpC6w
    ⟨"/dev/sdf", 68719476736, 134217728, false, "/dev/sdfp2"⟩
    8589934592 none none "/dev/sdf2 / ext4 rw 0 0" rfl rfl (by decide) (by decide)
    (by decide) (by decide) (by decide) rfl rfl (by decide)

/-- Input for the C6 counterexample: a real (non dry-run) run in which the
device is the active root and the override flag is absent, but a dependency
is missing and installing it fails, so the dependency step itself fails. -/
def inpC6x : MainInput :=
  { euid_is_zero := true, deps_missing := true, deps_ok := false, root_size_arg := "8G",
    swap_size_arg := none, var_size_arg := none,
    device_arg := "/dev/sdg", device_exists := true,
    parted_size := some 68719476736, root_part_exists := true,
    proc_mounts := some "/dev/sdg2 / ext4 rw 0 0", allow_active_disk := false,
    dry_run := false, root_start_result := some 8192, steps := stAll }

/-- C6 counterexample: on an active-root target, in a non dry-run execution
with a missing dependency whose installation fails, main aborts with the
dependency error rather than UnsafeTargetError, so the dependency check
does not follow the safety gate in execution order as the claim states —
it precedes it. -/
theorem c6_active_root_gate_counterexample :
    inpC6x.dry_run = false
    ∧ inpC6x.deps_missing = true
    ∧ inpC6x.deps_ok = false
    ∧ inpC6x.allow_active_disk = false
    ∧ is_active_root_disk "/dev/sdg2 / ext4 rw 0 0" "/dev/sdg" = true
    ∧ main_flow inpC6x = ([], RunResult.fatal MainError.depsFailed)
    ∧ RunResult.fatal MainError.depsFailed ≠ RunResult.fatal MainError.activeRootDisk := by
  refine ⟨rfl, rfl, rfl, rfl, by decide, by decide, by decide⟩

end Crpart
